import Mathlib

/-!
Shallow embedding of the CNV engine in `src/cnv.py` (function `cnv_script_karim`
and its local helpers).  Spreadsheet cell values are modelled as exact rationals
(`ℚ`); Python exceptions (`ZeroDivisionError`, `KeyError`) are modelled with
`Except PyError`; Python dicts built row by row are modelled as association
lists in row order (the panel invariant is that amplicon ids are unique, so
insertion-order dicts and association lists agree).  Amplicon ids and gene
names are the strings obtained after the `str(...).replace(".0", "")` cell
normalization that the source applies at every read; the embedding works with
those already-normalized keys.
-/

namespace Cnv

/-- Python exceptions that the modelled region of `cnv.py` can raise:
`ZeroDivisionError` from a division, `KeyError` from a dict lookup. -/
inductive PyError where
  | zeroDivisionError : PyError
  | keyError : String → PyError
deriving DecidableEq, Repr

/-- A Python `for` loop whose body may raise: it produces one result per
element and aborts on the first exception, like the loops in `cnv.py`. -/
def exceptMap {α β : Type} (f : α → Except PyError β) : List α → Except PyError (List β)
  | [] => Except.ok []
  | x :: xs =>
    match f x with
    | Except.error e => Except.error e
    | Except.ok y =>
      match exceptMap f xs with
      | Except.error e => Except.error e
      | Except.ok ys => Except.ok (y :: ys)

/-- Python dict assignment `d[k] = v`: overwrite the entry if the key is
present, otherwise append it (insertion order preserved). -/
def dictInsert (d : List (String × ℚ)) (k : String) (v : ℚ) : List (String × ℚ) :=
  if d.any (fun p => p.1 == k) then
    d.map (fun p => if p.1 == k then (k, v) else p)
  else
    d ++ [(k, v)]

/-- `somme_colonnePatientX` (src/cnv.py lines 575-581): sums one patient's
raw-count column over every data row of the coverage matrix with an
accumulating loop. -/
def somme_colonnePatientX (col : List ℚ) : ℚ :=
  col.foldl (fun acc v => acc + v) 0

/-- Round-half-to-even to an integer, the tie rule of Python's `round`. -/
def roundHalfEvenInt (q : ℚ) : ℤ :=
  if q - (⌊q⌋ : ℚ) < 1 / 2 then ⌊q⌋
  else if 1 / 2 < q - (⌊q⌋ : ℚ) then ⌊q⌋ + 1
  else if ⌊q⌋ % 2 = 0 then ⌊q⌋ else ⌊q⌋ + 1

/-- Python's `round(x, 3)`: round to three decimal places, ties to even. -/
def roundQ3 (q : ℚ) : ℚ :=
  (roundHalfEvenInt (q * 1000) : ℚ) / 1000

/-- `moy_Norm_TemoinsPorphy` (src/cnv.py lines 583-595): loads the
control-baseline sheet into a dict `amplicon id → baseline value`, one row at
a time.  The source performs no validation of any kind on the values. -/
def moy_Norm_TemoinsPorphy (rows : List (String × ℚ)) : List (String × ℚ) :=
  rows.foldl (fun d p => dictInsert d p.1 p.2) []

/-- `moy_Norm_dict_patient` (src/cnv.py lines 597-610): for one patient column
of the coverage matrix (`rows` = list of `(amplicon id, raw count)` in sheet
row order), builds the dict `amplicon id → raw / (column total − raw)`.
The column total is recomputed by `somme_colonnePatientX` on the same full
column for every row, so the same total is the subtrahend base everywhere.
A zero denominator raises `ZeroDivisionError`. -/
def moy_Norm_dict_patient (rows : List (String × ℚ)) : Except PyError (List (String × ℚ)) :=
  exceptMap (fun p =>
    if somme_colonnePatientX (rows.map Prod.snd) - p.2 = 0 then
      Except.error PyError.zeroDivisionError
    else
      Except.ok (p.1, p.2 / (somme_colonnePatientX (rows.map Prod.snd) - p.2))) rows

/-- The `dictRatio` loop (src/cnv.py lines 653-661): for each entry of the
patient's normalized dict, `round(normalized / baseline, 3)`.  A missing
baseline key raises `KeyError`; a zero baseline raises `ZeroDivisionError`. -/
def computeDictRatio (moyP temoin : List (String × ℚ)) : Except PyError (List (String × ℚ)) :=
  exceptMap (fun p =>
    match temoin.lookup p.1 with
    | none => Except.error (PyError.keyError p.1)
    | some t =>
      if t = 0 then Except.error PyError.zeroDivisionError
      else Except.ok (p.1, roundQ3 (p.2 / t))) moyP

/-- The three copy-number classes.  In the amplicon spreadsheet (src/cnv.py
lines 666-681) they are rendered as the red, blue and plain cell formats. -/
inductive Classification where
  | Deletion : Classification
  | Duplication : Classification
  | Normal : Classification
deriving DecidableEq, Repr

/-- The amplicon-level branch structure (src/cnv.py lines 667-681): red
(Deletion) when `ratio < deletion_threshold`, else blue (Duplication) when
`ratio >= duplication_threshold`, else plain (Normal). -/
def ampClassify (r d u : ℚ) : Classification :=
  if r < d then Classification.Deletion
  else if u ≤ r then Classification.Duplication
  else Classification.Normal

/-- The anomaly-text deletion condition (src/cnv.py line 701):
`dictRatio[cle] < deletion_threshold`. -/
def ampDeletionLine (r d : ℚ) : Bool :=
  decide (r < d)

/-- The anomaly-text duplication condition (src/cnv.py line 708):
`dictRatio[cle] >= duplication_threshold`. -/
def ampDuplicationLine (r u : ℚ) : Bool :=
  decide (u ≤ r)

/-- One row of the amplicon ratio spreadsheet: every branch writes the
chromosome, the amplicon id and the ratio; the branches differ only in the
cell format, recorded here as the classification. -/
structure AmpRow where
  chromo : String
  ampli : String
  ratio : ℚ
  cls : Classification
deriving DecidableEq, Repr

/-- One patient's pass of the amplicon stage (src/cnv.py lines 650-681):
normalize the raw-count column, divide by the control baseline with rounding,
then walk the ordered amplicon list writing one classified spreadsheet row per
amplicon (`dictRatio` and `dictChromosome` lookups raise `KeyError` when the
ordered list names an unknown amplicon). -/
def processPatient (rows temoin : List (String × ℚ))
    (dictChromosome : List (String × String)) (listeOrdonneeAmpli : List String)
    (d u : ℚ) : Except PyError (List AmpRow) :=
  match moy_Norm_dict_patient rows with
  | Except.error e => Except.error e
  | Except.ok m =>
    match computeDictRatio m temoin with
    | Except.error e => Except.error e
    | Except.ok dictRatio =>
      exceptMap (fun item =>
        match dictRatio.lookup item, dictChromosome.lookup item with
        | some r, some ch => Except.ok ⟨ch, item, r, ampClassify r d u⟩
        | _, _ => Except.error (PyError.keyError item)) listeOrdonneeAmpli

/-- Python's `int(...)` on a spreadsheet number: truncation toward zero. -/
def pyInt (q : ℚ) : ℤ :=
  if 0 ≤ q then ⌊q⌋ else ⌈q⌉

/-- The coverage-matrix column writer (src/cnv.py lines 536-553): for each
panel amplicon in order, write `int(dictPatientEnCours[ampli_LO])`.  A sample
missing a panel amplicon raises `KeyError`; the value itself is written with
no validation. -/
def buildCoverageColumn (dictPatientEnCours : List (String × ℚ))
    (listOrdonneeAMP : List String) : Except PyError (List ℤ) :=
  exceptMap (fun ampli =>
    match dictPatientEnCours.lookup ampli with
    | none => Except.error (PyError.keyError ampli)
    | some v => Except.ok (pyInt v)) listOrdonneeAMP

/-- Python's `hay.find(needle) != -1`: the needle occurs as a contiguous
substring of the hay (the empty needle always matches, as in Python). -/
def pyContains (hay needle : String) : Bool :=
  (List.range (hay.data.length + 1)).any
    (fun i => decide (((hay.data.drop i).take needle.data.length) = needle.data))

/-- `listeGeneNonInterets` (src/cnv.py lines 804-833): the fixed
identity-vigilance marker list whose genes are suppressed from anomaly
reporting. -/
def listeGeneNonInterets : List String :=
  ["PENTA", "224830378", "224869380", "224862488", "224879644", "224829586",
   "224851112", "TH01", "224825605", "224824531", "AMEX", "AMEY",
   "D1MS201754411", "MON27", "BAT26", "D2MS62063094", "NR24", "BAT25",
   "D5MS172421761", "D6MS142691951", "D7MS1787520", "D7MS74608741",
   "D11MS106695515", "D13MS31722621", "NR21", "D15MS45897772",
   "D16MS18882660", "D17MS19314918"]

/-- A possibly-NaN gene mean: `none` models the NaN that `numpy.mean` returns
on an empty list.  Comparison `x < t` is false on NaN, as in Python. -/
def nanLt (x : Option ℚ) (t : ℚ) : Bool :=
  match x with
  | some q => decide (q < t)
  | none => false

/-- Comparison `x >= t`, false on NaN, as in Python. -/
def nanGe (x : Option ℚ) (t : ℚ) : Bool :=
  match x with
  | some q => decide (t ≤ q)
  | none => false

/-- Comparison `x > t`, false on NaN, as in Python. -/
def nanGt (x : Option ℚ) (t : ℚ) : Bool :=
  match x with
  | some q => decide (t < q)
  | none => false

/-- `numpy.mean` on a list of ratios: the arithmetic mean, or NaN (`none`)
on the empty list — numpy warns but does not raise. -/
def numpyMean : List ℚ → Option ℚ
  | [] => none
  | x :: xs => some (((x :: xs).foldl (fun a b => a + b) 0) / ((x :: xs).length : ℚ))

/-- The `listeGene` accumulation loop (src/cnv.py lines 862-866): walk the
ratio-sheet rows (`(amplicon id, ratio)` in sheet order) and append the ratio
of every row whose amplicon id contains the gene name as a substring
(`.find(gene) != -1`). -/
def listeGeneFor (gene : String) (rows : List (String × ℚ)) : List ℚ :=
  rows.foldl (fun acc p => if pyContains p.1 gene then acc ++ [p.2] else acc) []

/-- `dictRatioParGene[gene]` (src/cnv.py line 867): the numpy mean of the
substring-matched ratios. -/
def dictRatioParGene (gene : String) (rows : List (String × ℚ)) : Option ℚ :=
  numpyMean (listeGeneFor gene rows)

/-- Spec-side definition for the refinement comparison of the gene aggregate:
the mean of the ratios of exactly those amplicons mapped to the gene by the
panel's explicit gene index (`dictAmpliGene`, src/cnv.py lines 512-514),
using exact membership rather than substring search. -/
def geneAggregateSpec (gene : String) (dictAmpliGene : List (String × String))
    (rows : List (String × ℚ)) : Option ℚ :=
  numpyMean ((rows.filter (fun p => dictAmpliGene.lookup p.1 == some gene)).map Prod.snd)

/-- The gene spreadsheet branch structure (src/cnv.py lines 908-934): red
(Deletion) when `ratio < deletion_threshold` and the gene is not an identity
marker; else blue (Duplication) when `ratio >= duplication_threshold` and the
gene is not an identity marker; else the plain format. -/
def geneWriteClass (gene : String) (r : Option ℚ) (d u : ℚ) : Classification :=
  if nanLt r d && !(listeGeneNonInterets.contains gene) then Classification.Deletion
  else if nanGe r u && !(listeGeneNonInterets.contains gene) then Classification.Duplication
  else Classification.Normal

/-- One row of the per-gene ratio spreadsheet: every branch of the source
writes the chromosome, the gene name and the numeric mean ratio; the branches
differ only in the cell format, recorded here as the classification. -/
structure GeneRow where
  chromo : String
  gene : String
  value : Option ℚ
  cls : Classification
deriving DecidableEq, Repr

/-- The gene-row write (src/cnv.py lines 908-934) as a record.  The
chromosome is a parameter here, so this models the write for a gene whose
per-patient chromosome entry exists — every gene with at least one
substring-matched row; the `dictChromoso[geneName]` lookup that precedes the
write in every branch, and raises `KeyError` for an unmatched gene, is
modelled separately by `writeGeneRowStep`. -/
def writeGeneRow (chromo gene : String) (r : Option ℚ) (d u : ℚ) : GeneRow :=
  ⟨chromo, gene, r, geneWriteClass gene r d u⟩

/-- The per-patient chromosome dict entry for one gene (src/cnv.py lines
860-866): `dictChromoso` is re-initialized for each patient and
`dictChromoso[gene]` is assigned, to the row's column-0 chromosome, only
inside the substring-match branch; a gene matching no row of the ratio sheet
(rows given as (chromosome, amplicon id, ratio) triples) has no entry,
modelled as `none`. -/
def dictChromosoFor (gene : String) (rows : List (String × String × ℚ)) : Option String :=
  rows.foldl (fun acc r => if pyContains r.2.1 gene then some r.1 else acc) none

/-- One iteration of the gene spreadsheet write loop (src/cnv.py lines
908-934): every branch evaluates `dictChromoso[geneName]` as the argument of
its first write, so a gene with no chromosome entry raises `KeyError` before
anything is written; otherwise the classified row is written. -/
def writeGeneRowStep (gene : String) (chromoEntry : Option String) (r : Option ℚ)
    (d u : ℚ) : Except PyError GeneRow :=
  match chromoEntry with
  | none => Except.error (PyError.keyError gene)
  | some ch => Except.ok ⟨ch, gene, r, geneWriteClass gene r d u⟩

/-- The gene anomaly-text deletion condition (src/cnv.py lines 884-893):
`ratio < deletion_threshold and gene not in listeGeneNonInterets`. -/
def geneDeletionAnomaly (gene : String) (r : Option ℚ) (d : ℚ) : Bool :=
  nanLt r d && !(listeGeneNonInterets.contains gene)

/-- The gene anomaly-text duplication condition (src/cnv.py lines 896-905):
`ratio >= duplication_threshold and gene not in listeGeneNonInterets`. -/
def geneDuplicationAnomaly (gene : String) (r : Option ℚ) (u : ℚ) : Bool :=
  nanGe r u && !(listeGeneNonInterets.contains gene)

/-- The gene scatter-plot grouping (src/cnv.py lines 949-971): the first
branch collects Deletion points, the second Duplication points, the third —
guarded by `ratio > deletion_threshold and ratio < duplication_threshold` —
Normal points; a gene matching no branch is plotted nowhere. -/
def genePlotGroup (gene : String) (r : Option ℚ) (d u : ℚ) : Option Classification :=
  if nanLt r d && !(listeGeneNonInterets.contains gene) then some Classification.Deletion
  else if nanGe r u && !(listeGeneNonInterets.contains gene) then some Classification.Duplication
  else if nanGt r d && nanLt r u && !(listeGeneNonInterets.contains gene) then
    some Classification.Normal
  else none

/-! Helper lemmas about the loop combinators. -/

theorem foldl_add_eq (xs : List ℚ) : ∀ a : ℚ, xs.foldl (fun x y => x + y) a = a + xs.sum := by
  induction xs with
  | nil => intro a; simp
  | cons x xs ih =>
    intro a
    simp only [List.foldl_cons, List.sum_cons, ih (a + x)]
    ring

theorem exceptMap_ok_total {α β : Type} {f : α → Except PyError β} {g : α → β}
    (hfg : ∀ x y, f x = Except.ok y → y = g x) :
    ∀ {l : List α} {m : List β}, exceptMap f l = Except.ok m → m = l.map g := by
  intro l
  induction l with
  | nil => intro m h; simpa [exceptMap] using h.symm
  | cons x xs ih =>
    intro m h
    unfold exceptMap at h
    cases hx : f x with
    | error e => rw [hx] at h; exact absurd h (by simp)
    | ok y =>
      rw [hx] at h
      cases hxs : exceptMap f xs with
      | error e => rw [hxs] at h; exact absurd h (by simp)
      | ok ys =>
        rw [hxs] at h
        simp only [Except.ok.injEq] at h
        subst h
        simp [hfg x y hx, ih hxs]

theorem exceptMap_ok_forward {α β : Type} {f : α → Except PyError β} :
    ∀ {l : List α} {m : List β}, exceptMap f l = Except.ok m →
      ∀ x ∈ l, ∃ y ∈ m, f x = Except.ok y := by
  intro l
  induction l with
  | nil => intro m _ x hx; exact absurd hx (by simp)
  | cons a xs ih =>
    intro m h x hx
    unfold exceptMap at h
    cases ha : f a with
    | error e => rw [ha] at h; exact absurd h (by simp)
    | ok y =>
      rw [ha] at h
      cases hxs : exceptMap f xs with
      | error e => rw [hxs] at h; exact absurd h (by simp)
      | ok ys =>
        rw [hxs] at h
        simp only [Except.ok.injEq] at h
        subst h
        rcases List.mem_cons.mp hx with hx | hx
        · exact ⟨y, by simp, hx ▸ ha⟩
        · rcases ih hxs x hx with ⟨z, hz, hfz⟩
          exact ⟨z, by simp [hz], hfz⟩

theorem exceptMap_error_mem {α β : Type} {f : α → Except PyError β} :
    ∀ {l : List α} {e : PyError}, exceptMap f l = Except.error e →
      ∃ x ∈ l, f x = Except.error e := by
  intro l
  induction l with
  | nil => intro e h; exact absurd h (by simp [exceptMap])
  | cons a xs ih =>
    intro e h
    unfold exceptMap at h
    cases ha : f a with
    | error e2 =>
      rw [ha] at h
      simp only [Except.error.injEq] at h
      exact ⟨a, by simp, h ▸ ha⟩
    | ok y =>
      rw [ha] at h
      cases hxs : exceptMap f xs with
      | error e2 =>
        rw [hxs] at h
        simp only [Except.error.injEq] at h
        rcases ih (h ▸ hxs) with ⟨x, hx, hfx⟩
        exact ⟨x, by simp [hx], hfx⟩
      | ok ys => rw [hxs] at h; exact absurd h (by simp)

theorem exceptMap_ok_of_forall {α β : Type} {f : α → Except PyError β} :
    ∀ {l : List α}, (∀ x ∈ l, ∃ y, f x = Except.ok y) →
      ∃ m, exceptMap f l = Except.ok m := by
  intro l
  induction l with
  | nil => intro _; exact ⟨[], rfl⟩
  | cons a xs ih =>
    intro h
    rcases h a (by simp) with ⟨y, hy⟩
    rcases ih (fun x hx => h x (by simp [hx])) with ⟨m, hm⟩
    exact ⟨y :: m, by unfold exceptMap; rw [hy, hm]⟩

theorem listeGeneFor_eq_filter (gene : String) (rows : List (String × ℚ)) :
    listeGeneFor gene rows = (rows.filter (fun p => pyContains p.1 gene)).map Prod.snd := by
  have aux : ∀ (l : List (String × ℚ)) (acc : List ℚ),
      l.foldl (fun acc p => if pyContains p.1 gene then acc ++ [p.2] else acc) acc
        = acc ++ (l.filter (fun p => pyContains p.1 gene)).map Prod.snd := by
    intro l
    induction l with
    | nil => intro acc; simp
    | cons p t ih =>
      intro acc
      by_cases hp : pyContains p.1 gene
      · simp [List.filter_cons, hp, ih]
      · simp [List.filter_cons, hp, ih]
  simpa using aux rows []

theorem listeGeneFor_eq_nil (gene : String) (prs : List (String × ℚ))
    (h : ∀ p ∈ prs, pyContains p.1 gene = false) :
    listeGeneFor gene prs = [] := by
  rw [listeGeneFor_eq_filter]
  have hf : prs.filter (fun p => pyContains p.1 gene) = [] := by
    induction prs with
    | nil => rfl
    | cons p t ih =>
      rw [List.filter_cons, h p (by simp)]
      exact ih (fun q hq => h q (by simp [hq]))
  rw [hf]
  rfl

theorem dictChromosoFor_eq_none (gene : String) (rows : List (String × String × ℚ))
    (h : ∀ r ∈ rows, pyContains r.2.1 gene = false) :
    dictChromosoFor gene rows = none := by
  have aux : ∀ (l : List (String × String × ℚ)) (acc : Option String),
      (∀ r ∈ l, pyContains r.2.1 gene = false) →
      l.foldl (fun acc r => if pyContains r.2.1 gene then some r.1 else acc) acc = acc := by
    intro l
    induction l with
    | nil => intro acc _; rfl
    | cons r t ih =>
      intro acc hl
      rw [List.foldl_cons, if_neg (by simp [hl r (by simp)])]
      exact ih acc (fun q hq => hl q (by simp [hq]))
  exact aux rows none h

theorem numpyMean_perm {xs ys : List ℚ} (h : xs.Perm ys) : numpyMean xs = numpyMean ys := by
  cases xs with
  | nil =>
    cases ys with
    | nil => rfl
    | cons y t => exact absurd h.length_eq (by simp)
  | cons x t =>
    cases ys with
    | nil => exact absurd h.length_eq (by simp)
    | cons y s =>
      simp only [numpyMean, Option.some.injEq]
      rw [foldl_add_eq, foldl_add_eq, zero_add, zero_add, h.sum_eq, h.length_eq]

/-! Claim theorems. -/

/-- C1: classification is a pure threshold rule with asymmetric boundaries —
for thresholds `d < u`, a ratio is Deletion iff it is strictly below `d`
(so `r = d` is not a Deletion), Duplication iff it is at or above `u`
(so `r = u` is a Duplication), and Normal otherwise; both the amplicon
spreadsheet branches (`ampClassify`) and the anomaly-text branches
(`ampDeletionLine`, `ampDuplicationLine`) implement exactly this rule. -/
theorem C1_classification_boundaries (r d u : ℚ) (h : d < u) :
    (ampClassify r d u = Classification.Deletion ↔ r < d)
    ∧ (ampClassify r d u = Classification.Duplication ↔ u ≤ r)
    ∧ (ampClassify r d u = Classification.Normal ↔ d ≤ r ∧ r < u)
    ∧ (ampDeletionLine r d = true ↔ r < d)
    ∧ (ampDuplicationLine r u = true ↔ u ≤ r) := by
  refine ⟨?_, ?_, ?_, by simp [ampDeletionLine], by simp [ampDuplicationLine]⟩ <;>
    unfold ampClassify <;> split_ifs with h1 h2 <;> simp_all <;> linarith

/-- Witness for C1 at `r = 2`, `d = 1`, `u = 3`. -/
theorem C1_classification_boundaries_witness :
    ((1:ℚ) < 3)
    ∧ ((ampClassify 2 1 3 = Classification.Deletion ↔ (2:ℚ) < 1)
      ∧ (ampClassify 2 1 3 = Classification.Duplication ↔ (3:ℚ) ≤ 2)
      ∧ (ampClassify 2 1 3 = Classification.Normal ↔ (1:ℚ) ≤ 2 ∧ (2:ℚ) < 3)
      ∧ (ampDeletionLine 2 1 = true ↔ (2:ℚ) < 1)
      ∧ (ampDuplicationLine 2 3 = true ↔ (3:ℚ) ≤ 2)) :=
  ⟨by norm_num, C1_classification_boundaries 2 1 3 (by norm_num)⟩

/-- C7 as amended: identity-marker suppression keeps the numeric gene ratio
in the full per-gene table (the written value is the gene mean unchanged) and
keeps the gene out of the anomaly-only output, but the table row of a
suppressed gene always carries the plain (Normal) format — its classification
is not rendered as for an equivalent non-suppressed gene. -/
theorem C7_suppression_effect (ch gene : String) (r : Option ℚ) (d u : ℚ)
    (h : listeGeneNonInterets.contains gene = true) :
    (writeGeneRow ch gene r d u).value = r
    ∧ (writeGeneRow ch gene r d u).cls = Classification.Normal
    ∧ geneDeletionAnomaly gene r d = false
    ∧ geneDuplicationAnomaly gene r u = false := by
  have hmem : gene ∈ listeGeneNonInterets := List.mem_of_elem_eq_true h
  refine ⟨rfl, ?_, ?_, ?_⟩ <;>
    simp [writeGeneRow, geneWriteClass, geneDeletionAnomaly, geneDuplicationAnomaly, hmem]

/-- Witness for C7: the suppressed marker TH01 with gene mean 0. -/
theorem C7_suppression_effect_witness :
    (listeGeneNonInterets.contains "TH01" = true)
    ∧ ((writeGeneRow "chr1" "TH01" (some 0) 1 3).value = some 0
      ∧ (writeGeneRow "chr1" "TH01" (some 0) 1 3).cls = Classification.Normal
      ∧ geneDeletionAnomaly "TH01" (some 0) 1 = false
      ∧ geneDuplicationAnomaly "TH01" (some 0) 3 = false) :=
  ⟨by decide, C7_suppression_effect "chr1" "TH01" (some 0) 1 3 (by decide)⟩

/-- C7 counterexample: the claim as stated is false — a suppressed gene's
classification is not emitted as for an equivalent non-suppressed gene.  The
identity marker TH01 with gene mean 0 (a deletion-range value for thresholds
1 and 3) is written with the plain Normal format, while an equivalent
non-suppressed gene QQQQ with the same mean is written as a Deletion. -/
theorem C7_counterexample :
    listeGeneNonInterets.contains "TH01" = true
    ∧ listeGeneNonInterets.contains "QQQQ" = false
    ∧ writeGeneRow "chr1" "TH01" (some 0) 1 3
        = ⟨"chr1", "TH01", some 0, Classification.Normal⟩
    ∧ writeGeneRow "chr1" "QQQQ" (some 0) 1 3
        = ⟨"chr1", "QQQQ", some 0, Classification.Deletion⟩ := by
  refine ⟨by decide, by decide, ?_, ?_⟩ <;>
    simp [writeGeneRow, geneWriteClass, nanLt, nanGe] <;> decide

/-- C8 as amended: the program performs no validation of
`deletion_threshold < duplication_threshold` (neither `main` nor
`cnv_script_karim` compares them), and with inverted thresholds the
Deletion branch shadows the Duplication branch: any ratio below
`deletion_threshold`, even one at or above `duplication_threshold`,
is classified Deletion. -/
theorem C8_inverted_thresholds_shadow (r d u : ℚ) (h1 : u ≤ r) (h2 : r < d) :
    ampClassify r d u = Classification.Deletion := by
  simp [ampClassify, h2]

/-- Witness for C8 at `r = 1`, `d = 2`, `u = 1`. -/
theorem C8_inverted_thresholds_shadow_witness :
    ((1:ℚ) ≤ 1) ∧ ((1:ℚ) < 2) ∧ ampClassify 1 2 1 = Classification.Deletion :=
  ⟨by norm_num, by norm_num, C8_inverted_thresholds_shadow 1 2 1 (by norm_num) (by norm_num)⟩

/-- C10: a gene is assigned to a scatter-plot point group iff it is not an
identity marker and its mean ratio is a number different from
`deletion_threshold`; identity markers, genes whose mean equals
`deletion_threshold` exactly, and NaN means are silently omitted. -/
theorem C10_plot_grouping (gene : String) (r : Option ℚ) (d u : ℚ) (h : d < u) :
    (genePlotGroup gene r d u).isSome = true
      ↔ (listeGeneNonInterets.contains gene = false ∧ ∃ q, r = some q ∧ q ≠ d) := by
  cases hc : listeGeneNonInterets.contains gene with
  | true =>
    have hmem : gene ∈ listeGeneNonInterets := List.mem_of_elem_eq_true hc
    simp [genePlotGroup, hmem]
  | false =>
    cases r with
    | none => simp [genePlotGroup, nanLt, nanGe, nanGt, hc]
    | some q =>
      simp only [genePlotGroup, nanLt, nanGe, nanGt, hc, Bool.not_false, Bool.and_true]
      rcases lt_trichotomy q d with hq | hq | hq
      · simp [hq, ne_of_lt hq]
      · subst hq
        simp [lt_irrefl, not_le.mpr h, not_lt.mpr (le_of_lt h)]
      · have hnd : ¬ (q < d) := not_lt.mpr (le_of_lt hq)
        by_cases hu : u ≤ q
        · simp [hq, hnd, hu, ne_of_gt hq]
        · simp [hq, hnd, hu, not_le.mp hu, ne_of_gt hq]

/-- Witness for C10 at gene QQQQ, mean 0, thresholds 1 and 3. -/
theorem C10_plot_grouping_witness :
    ((1:ℚ) < 3)
    ∧ ((genePlotGroup "QQQQ" (some 0) 1 3).isSome = true
      ↔ (listeGeneNonInterets.contains "QQQQ" = false ∧ ∃ q, some (0:ℚ) = some q ∧ q ≠ 1)) :=
  ⟨by norm_num, C10_plot_grouping "QQQQ" (some 0) 1 3 (by norm_num)⟩

/-- C2 as amended: the per-patient gene aggregate is the order-independent
arithmetic mean of the ratios of exactly those amplicons whose id contains the
gene name as a substring (Python `find`), not of the amplicons mapped to the
gene by the panel's explicit gene index. -/
theorem C2_gene_aggregate_substring_mean (gene : String) (rows rows2 : List (String × ℚ))
    (h : rows.Perm rows2) :
    dictRatioParGene gene rows
      = numpyMean ((rows.filter (fun p => pyContains p.1 gene)).map Prod.snd)
    ∧ dictRatioParGene gene rows = dictRatioParGene gene rows2 := by
  constructor
  · unfold dictRatioParGene
    rw [listeGeneFor_eq_filter]
  · unfold dictRatioParGene
    rw [listeGeneFor_eq_filter, listeGeneFor_eq_filter]
    exact numpyMean_perm (List.Perm.map Prod.snd (List.Perm.filter _ h))

/-- C3: for every sample, the per-amplicon normalized value is
`raw / (sample_total_reads − raw)` where `sample_total_reads` is the sum of
the sample's whole raw-count column, the same total is the subtrahend base of
every amplicon's denominator, and the emitted ratio is
`round(normalized / baseline, 3)`. -/
theorem C3_normalization_and_ratio (rows temoin m dr : List (String × ℚ))
    (hm : moy_Norm_dict_patient rows = Except.ok m)
    (hdr : computeDictRatio m temoin = Except.ok dr) :
    somme_colonnePatientX (rows.map Prod.snd) = (rows.map Prod.snd).sum
    ∧ m = rows.map (fun p => (p.1, p.2 / ((rows.map Prod.snd).sum - p.2)))
    ∧ ∀ p ∈ m, ∃ t, temoin.lookup p.1 = some t ∧ t ≠ 0
        ∧ (p.1, roundQ3 (p.2 / t)) ∈ dr := by
  have hS : somme_colonnePatientX (rows.map Prod.snd) = (rows.map Prod.snd).sum := by
    unfold somme_colonnePatientX
    rw [foldl_add_eq]
    ring
  refine ⟨hS, ?_, ?_⟩
  · unfold moy_Norm_dict_patient at hm
    refine exceptMap_ok_total ?_ hm
    intro p y hy
    by_cases hz : somme_colonnePatientX (rows.map Prod.snd) - p.2 = 0
    · rw [if_pos hz] at hy
      exact absurd hy (by simp)
    · rw [if_neg hz] at hy
      simp only [Except.ok.injEq] at hy
      rw [← hy, hS]
  · intro p hp
    unfold computeDictRatio at hdr
    rcases exceptMap_ok_forward hdr p hp with ⟨q, hq, hfq⟩
    split at hfq
    · exact absurd hfq (by simp)
    · rename_i t hl
      by_cases ht : t = 0
      · rw [if_pos ht] at hfq
        exact absurd hfq (by simp)
      · rw [if_neg ht] at hfq
        simp only [Except.ok.injEq] at hfq
        exact ⟨t, hl, ht, hfq ▸ hq⟩

/-- C4: a sample in which some amplicon's raw count equals the whole-column
total (denominator `total − raw = 0`) makes the normalization step raise the
zero-denominator error (the spec's RatioError, Python's ZeroDivisionError),
and the per-patient pass produces no output record for that sample. -/
theorem C4_zero_denominator_is_fatal (rows temoin : List (String × ℚ))
    (dictChromosome : List (String × String)) (listeOrdonneeAmpli : List String)
    (d u : ℚ)
    (h : ∃ p ∈ rows, somme_colonnePatientX (rows.map Prod.snd) - p.2 = 0) :
    processPatient rows temoin dictChromosome listeOrdonneeAmpli d u
      = Except.error PyError.zeroDivisionError
    ∧ ∀ out, processPatient rows temoin dictChromosome listeOrdonneeAmpli d u
        ≠ Except.ok out := by
  rcases h with ⟨p, hp, hz⟩
  have hmoy : moy_Norm_dict_patient rows = Except.error PyError.zeroDivisionError := by
    unfold moy_Norm_dict_patient
    cases hres : exceptMap (fun p =>
        if somme_colonnePatientX (rows.map Prod.snd) - p.2 = 0 then
          Except.error PyError.zeroDivisionError
        else
          Except.ok (p.1, p.2 / (somme_colonnePatientX (rows.map Prod.snd) - p.2))) rows with
    | ok m =>
      rcases exceptMap_ok_forward hres p hp with ⟨y, _, hy⟩
      rw [if_pos hz] at hy
      exact absurd hy (by simp)
    | error e =>
      rcases exceptMap_error_mem hres with ⟨x, _, hfx⟩
      by_cases hzx : somme_colonnePatientX (rows.map Prod.snd) - x.2 = 0
      · rw [if_pos hzx] at hfx
        simp only [Except.error.injEq] at hfx
        rw [hfx]
      · rw [if_neg hzx] at hfx
        exact absurd hfx (by simp)
  constructor
  · unfold processPatient
    rw [hmoy]
  · intro out
    unfold processPatient
    rw [hmoy]
    simp

/-- Witness for C4: a two-amplicon sample whose first count equals the column
total (the second count is zero). -/
theorem C4_zero_denominator_is_fatal_witness :
    (∃ p ∈ [("A", (1:ℚ)), ("B", 0)],
      somme_colonnePatientX ([("A", (1:ℚ)), ("B", 0)].map Prod.snd) - p.2 = 0)
    ∧ (processPatient [("A", (1:ℚ)), ("B", 0)] [("A", 1), ("B", 1)]
          [("A", "chr1"), ("B", "chr1")] ["A", "B"] 1 3
        = Except.error PyError.zeroDivisionError
      ∧ ∀ out, processPatient [("A", (1:ℚ)), ("B", 0)] [("A", 1), ("B", 1)]
          [("A", "chr1"), ("B", "chr1")] ["A", "B"] 1 3 ≠ Except.ok out) :=
  ⟨⟨("A", 1), by simp, by norm_num [somme_colonnePatientX]⟩,
    C4_zero_denominator_is_fatal _ _ _ _ 1 3
      ⟨("A", 1), by simp, by norm_num [somme_colonnePatientX]⟩⟩

/-- C5 as amended: baseline loading performs no validation and always
succeeds; a missing or zero baseline for an amplicon appearing in a sample's
normalized dict causes the per-sample ratio computation to fail (KeyError or
ZeroDivisionError) — the failure is deferred to ratio computation, not raised
at load time. -/
theorem C5_baseline_failure_deferred (m temoin : List (String × ℚ))
    (h : ∃ p ∈ m, temoin.lookup p.1 = none ∨ temoin.lookup p.1 = some 0) :
    ∃ e, computeDictRatio m temoin = Except.error e := by
  rcases h with ⟨p, hp, hcase⟩
  cases hres : computeDictRatio m temoin with
  | error e => exact ⟨e, rfl⟩
  | ok dr =>
    unfold computeDictRatio at hres
    rcases exceptMap_ok_forward hres p hp with ⟨y, _, hy⟩
    rcases hcase with hl | hl <;> rw [hl] at hy <;> simp at hy

/-- Witness for C5: a normalized dict with an amplicon missing from the
baseline. -/
theorem C5_baseline_failure_deferred_witness :
    (∃ p ∈ [("A", (1:ℚ))], List.lookup p.1 ([] : List (String × ℚ)) = none
      ∨ List.lookup p.1 ([] : List (String × ℚ)) = some 0)
    ∧ ∃ e, computeDictRatio [("A", (1:ℚ))] [] = Except.error e :=
  ⟨⟨("A", 1), by simp, Or.inl rfl⟩,
    C5_baseline_failure_deferred _ _ ⟨("A", 1), by simp, Or.inl rfl⟩⟩

/-- C6 as amended: aggregation does not fail for a gene with no matched
amplicons — its mean is silently NaN (`numpy.mean` of an empty list) and the
gene never appears in the anomaly output; the run fails only later, when the
gene spreadsheet write evaluates the per-patient chromosome dict, which has
no entry for an unmatched gene: that lookup raises KeyError, so the gene's
row is never written. -/
theorem C6_empty_gene_nan_then_keyerror (gene : String)
    (rows : List (String × String × ℚ)) (d u : ℚ)
    (h : ∀ r ∈ rows, pyContains r.2.1 gene = false) :
    dictRatioParGene gene (rows.map (fun r => (r.2.1, r.2.2))) = none
    ∧ geneDeletionAnomaly gene
        (dictRatioParGene gene (rows.map (fun r => (r.2.1, r.2.2)))) d = false
    ∧ geneDuplicationAnomaly gene
        (dictRatioParGene gene (rows.map (fun r => (r.2.1, r.2.2)))) u = false
    ∧ dictChromosoFor gene rows = none
    ∧ writeGeneRowStep gene (dictChromosoFor gene rows)
        (dictRatioParGene gene (rows.map (fun r => (r.2.1, r.2.2)))) d u
      = Except.error (PyError.keyError gene) := by
  have hmatch : ∀ p ∈ rows.map (fun r => (r.2.1, r.2.2)), pyContains p.1 gene = false := by
    intro p hp
    rcases List.mem_map.mp hp with ⟨r, hr, hpr⟩
    rw [← hpr]
    exact h r hr
  have hnan : dictRatioParGene gene (rows.map (fun r => (r.2.1, r.2.2))) = none := by
    unfold dictRatioParGene
    rw [listeGeneFor_eq_nil gene _ hmatch]
    rfl
  have hchr : dictChromosoFor gene rows = none := dictChromosoFor_eq_none gene rows h
  refine ⟨hnan, ?_, ?_, hchr, ?_⟩
  · simp [hnan, geneDeletionAnomaly, nanLt]
  · simp [hnan, geneDuplicationAnomaly, nanGe]
  · rw [hchr, hnan]
    rfl

/-- Witness for C6: the gene name ZZZ matches no amplicon id of a one-row
ratio sheet. -/
theorem C6_empty_gene_nan_then_keyerror_witness :
    (∀ r ∈ [("chr1", "A1", (1:ℚ))], pyContains r.2.1 "ZZZ" = false)
    ∧ (dictRatioParGene "ZZZ" ([("chr1", "A1", (1:ℚ))].map (fun r => (r.2.1, r.2.2))) = none
      ∧ geneDeletionAnomaly "ZZZ"
          (dictRatioParGene "ZZZ" ([("chr1", "A1", (1:ℚ))].map (fun r => (r.2.1, r.2.2)))) 1
        = false
      ∧ geneDuplicationAnomaly "ZZZ"
          (dictRatioParGene "ZZZ" ([("chr1", "A1", (1:ℚ))].map (fun r => (r.2.1, r.2.2)))) 3
        = false
      ∧ dictChromosoFor "ZZZ" [("chr1", "A1", (1:ℚ))] = none
      ∧ writeGeneRowStep "ZZZ" (dictChromosoFor "ZZZ" [("chr1", "A1", (1:ℚ))])
          (dictRatioParGene "ZZZ" ([("chr1", "A1", (1:ℚ))].map (fun r => (r.2.1, r.2.2)))) 1 3
        = Except.error (PyError.keyError "ZZZ")) := by
  have h : ∀ r ∈ [("chr1", "A1", (1:ℚ))], pyContains r.2.1 "ZZZ" = false := by decide
  exact ⟨h, C6_empty_gene_nan_then_keyerror "ZZZ" [("chr1", "A1", (1:ℚ))] 1 3 h⟩

/-- C9 as amended: the coverage-matrix build fails (KeyError) when a sample is
missing some panel amplicon, but it performs no sign validation — a sample in
which every panel amplicon is present succeeds even with negative counts. -/
theorem C9_coverage_validation (dict : List (String × ℚ)) (panel : List String) :
    ((∃ a ∈ panel, dict.lookup a = none) →
      ∃ e, buildCoverageColumn dict panel = Except.error e)
    ∧ ((∀ a ∈ panel, (dict.lookup a).isSome = true) →
      ∃ out, buildCoverageColumn dict panel = Except.ok out) := by
  constructor
  · rintro ⟨a, ha, hl⟩
    cases hres : buildCoverageColumn dict panel with
    | error e => exact ⟨e, rfl⟩
    | ok m =>
      unfold buildCoverageColumn at hres
      rcases exceptMap_ok_forward hres a ha with ⟨y, _, hy⟩
      rw [hl] at hy
      exact absurd hy (by simp)
  · intro hall
    unfold buildCoverageColumn
    apply exceptMap_ok_of_forall
    intro a ha
    rcases Option.isSome_iff_exists.mp (hall a ha) with ⟨v, hv⟩
    exact ⟨pyInt v, by rw [hv]⟩

/-- Witness for C9: a missing panel amplicon fails; a complete sample with a
negative count succeeds. -/
theorem C9_coverage_validation_witness :
    (∃ e, buildCoverageColumn [("A", (1:ℚ))] ["A", "B"] = Except.error e)
    ∧ (∃ out, buildCoverageColumn [("A", (1:ℚ)), ("B", -2)] ["A", "B"] = Except.ok out) :=
  ⟨(C9_coverage_validation [("A", (1:ℚ))] ["A", "B"]).1 ⟨"B", by simp, by decide⟩,
    (C9_coverage_validation [("A", (1:ℚ)), ("B", -2)] ["A", "B"]).2 (by decide)⟩

/-- C2 counterexample: the gene aggregate does not use exact membership in
the panel's gene index.  With the ratio sheet `[("A1", 1), ("AB1", 3)]` and
the explicit gene index mapping A1 to gene A and AB1 to gene B, the source's
substring-matching aggregate for gene A is 2 (it also picks up AB1, whose id
contains "A"), while the exact-membership mean of the claim is 1. -/
theorem C2_counterexample :
    dictRatioParGene "A" [("A1", (1:ℚ)), ("AB1", 3)] = some 2
    ∧ geneAggregateSpec "A" [("A1", "A"), ("AB1", "B")] [("A1", (1:ℚ)), ("AB1", 3)] = some 1 := by
  have h1 : pyContains "A1" "A" = true := by decide
  have h2 : pyContains "AB1" "A" = true := by decide
  constructor
  · unfold dictRatioParGene
    rw [listeGeneFor_eq_filter]
    simp only [List.filter, h1, h2]
    norm_num [numpyMean]
  · unfold geneAggregateSpec
    have hb1 : (List.lookup "A1" [("A1", "A"), ("AB1", "B")] == some "A") = true := by decide
    have hb2 : (List.lookup "AB1" [("A1", "A"), ("AB1", "B")] == some "A") = false := by decide
    simp only [List.filter, hb1, hb2]
    norm_num [numpyMean]

/-- Witness for C2's amended statement on a concrete two-row sheet and its
reversal. -/
theorem C2_gene_aggregate_substring_mean_witness :
    [("A1", (1:ℚ)), ("B2", 2)].Perm [("B2", (2:ℚ)), ("A1", 1)]
    ∧ (dictRatioParGene "A" [("A1", (1:ℚ)), ("B2", 2)]
        = numpyMean (([("A1", (1:ℚ)), ("B2", 2)].filter
            (fun p => pyContains p.1 "A")).map Prod.snd)
      ∧ dictRatioParGene "A" [("A1", (1:ℚ)), ("B2", 2)]
        = dictRatioParGene "A" [("B2", (2:ℚ)), ("A1", 1)]) := by
  have hp : [("A1", (1:ℚ)), ("B2", 2)].Perm [("B2", (2:ℚ)), ("A1", 1)] :=
    List.Perm.swap ("B2", (2:ℚ)) ("A1", 1) []
  exact ⟨hp, C2_gene_aggregate_substring_mean "A" _ _ hp⟩

/-- Witness for C3 at a concrete two-amplicon sample: counts 1 and 1 (total
2, both denominators 2 − 1 = 1), baselines 2 and 1, ratios
`round(1/2, 3) = 0.5` and `round(1, 3) = 1`. -/
theorem C3_normalization_and_ratio_witness :
    moy_Norm_dict_patient [("A", (1:ℚ)), ("B", 1)] = Except.ok [("A", 1), ("B", 1)]
    ∧ computeDictRatio [("A", (1:ℚ)), ("B", 1)] [("A", (2:ℚ)), ("B", 1)]
        = Except.ok [("A", 1/2), ("B", 1)]
    ∧ (somme_colonnePatientX ([("A", (1:ℚ)), ("B", 1)].map Prod.snd)
          = ([("A", (1:ℚ)), ("B", 1)].map Prod.snd).sum
      ∧ [("A", (1:ℚ)), ("B", 1)] = [("A", (1:ℚ)), ("B", 1)].map
          (fun p => (p.1, p.2 / (([("A", (1:ℚ)), ("B", 1)].map Prod.snd).sum - p.2)))
      ∧ ∀ p ∈ [("A", (1:ℚ)), ("B", 1)], ∃ t,
          List.lookup p.1 [("A", (2:ℚ)), ("B", 1)] = some t ∧ t ≠ 0
          ∧ (p.1, roundQ3 (p.2 / t)) ∈ [("A", (1:ℚ)/2), ("B", 1)]) := by
  have h1 : moy_Norm_dict_patient [("A", (1:ℚ)), ("B", 1)] = Except.ok [("A", 1), ("B", 1)] := by
    norm_num [moy_Norm_dict_patient, exceptMap, somme_colonnePatientX]
  have h2 : computeDictRatio [("A", (1:ℚ)), ("B", 1)] [("A", (2:ℚ)), ("B", 1)]
      = Except.ok [("A", 1/2), ("B", 1)] := by
    have eBA : ("B" == "A") = false := by decide
    norm_num [computeDictRatio, exceptMap, List.lookup, eBA, roundQ3, roundHalfEvenInt]
  exact ⟨h1, h2, C3_normalization_and_ratio _ _ _ _ h1 h2⟩

/-- C5 counterexample: baseline loading does not fail on a zero baseline —
`moy_Norm_TemoinsPorphy` returns the dict unchanged, and the failure only
happens later, inside the per-sample ratio computation, as a
ZeroDivisionError.  This contradicts "fails with ReferenceDataError at load
time, before and instead of any ratio computation". -/
theorem C5_counterexample :
    moy_Norm_TemoinsPorphy [("A", (0:ℚ))] = [("A", 0)]
    ∧ computeDictRatio [("A", (1:ℚ))] (moy_Norm_TemoinsPorphy [("A", (0:ℚ))])
        = Except.error PyError.zeroDivisionError := by
  have hload : moy_Norm_TemoinsPorphy [("A", (0:ℚ))] = [("A", 0)] := by
    simp [moy_Norm_TemoinsPorphy, dictInsert]
  refine ⟨hload, ?_⟩
  rw [hload]
  simp [computeDictRatio, exceptMap, List.lookup]

/-- C6 counterexample: with the one-row ratio sheet ("chr1", "A1", 1) and the
unmatched gene ZZZ, aggregation completes and silently produces the NaN
aggregate (`none`) — no error of any kind is raised by the aggregation step —
and the failure that does occur later is a KeyError on the per-patient
chromosome dict in the row write, not an AggregationError. -/
theorem C6_counterexample :
    listeGeneFor "ZZZ" [("A1", (1:ℚ))] = []
    ∧ dictRatioParGene "ZZZ" [("A1", (1:ℚ))] = none
    ∧ dictChromosoFor "ZZZ" [("chr1", "A1", (1:ℚ))] = none
    ∧ writeGeneRowStep "ZZZ" (dictChromosoFor "ZZZ" [("chr1", "A1", (1:ℚ))])
        (dictRatioParGene "ZZZ" [("A1", (1:ℚ))]) 1 3
      = Except.error (PyError.keyError "ZZZ") := by
  have h0 : listeGeneFor "ZZZ" [("A1", (1:ℚ))] = [] := by decide
  have hnan : dictRatioParGene "ZZZ" [("A1", (1:ℚ))] = none := by
    unfold dictRatioParGene
    rw [h0]
    rfl
  have hchr : dictChromosoFor "ZZZ" [("chr1", "A1", (1:ℚ))] = none := by decide
  exact ⟨h0, hnan, hchr, by rw [hchr, hnan]; rfl⟩

/-- C8 counterexample: with inverted thresholds (deletion 2 ≥ duplication 1)
nothing aborts — the run performs classification and produces output; the
ratios 1, which are at or above the duplication threshold, are classified
Deletion because the Deletion branch is tested first. -/
theorem C8_counterexample :
    processPatient [("A", (2:ℚ)), ("B", 2)] [("A", (1:ℚ)), ("B", 1)]
        [("A", "chr1"), ("B", "chr1")] ["A", "B"] 2 1
      = Except.ok [⟨"chr1", "A", 1, Classification.Deletion⟩,
          ⟨"chr1", "B", 1, Classification.Deletion⟩] := by
  have eBA : ("B" == "A") = false := by decide
  have hm : moy_Norm_dict_patient [("A", (2:ℚ)), ("B", 2)] = Except.ok [("A", 1), ("B", 1)] := by
    norm_num [moy_Norm_dict_patient, exceptMap, somme_colonnePatientX]
  have hr : computeDictRatio [("A", (1:ℚ)), ("B", 1)] [("A", (1:ℚ)), ("B", 1)]
      = Except.ok [("A", 1), ("B", 1)] := by
    norm_num [computeDictRatio, exceptMap, List.lookup, eBA, roundQ3, roundHalfEvenInt]
  unfold processPatient
  have l1 : List.lookup "A" [("A", (1:ℚ)), ("B", 1)] = some 1 := by decide
  have l2 : List.lookup "B" [("A", (1:ℚ)), ("B", 1)] = some 1 := by decide
  have c1 : List.lookup "A" [("A", "chr1"), ("B", "chr1")] = some "chr1" := by decide
  have c2 : List.lookup "B" [("A", "chr1"), ("B", "chr1")] = some "chr1" := by decide
  simp only [hm, hr]
  norm_num [exceptMap, l1, l2, c1, c2, ampClassify]

/-- C9 counterexample: a sample whose only amplicon has the negative count −5
builds without any error — no CoverageError-style validation of
non-negativity exists. -/
theorem C9_counterexample :
    buildCoverageColumn [("A", (-5:ℚ))] ["A"] = Except.ok [-5] := by
  have l1 : List.lookup "A" [("A", (-5:ℚ))] = some (-5) := by decide
  norm_num [buildCoverageColumn, exceptMap, l1, pyInt]
  rw [show ((-5 : ℚ)) = ((-5 : ℤ) : ℚ) by norm_num]
  rw [Int.ceil_intCast]

end Cnv
